import Mathlib

/-!
Shallow embedding of the citation-extraction and content-resolution pipeline
of `ackshually.py` (Wikipedia citation scraper and fact checker), together
with theorems settling the specification claims about it.

The embedding models:
  * the parsed markup tree handed around by BeautifulSoup (`DocumentNode`),
    with the tree-walking operations the script uses (`get_text`, `find`,
    `find_all`, attribute and class lookup);
  * the pure extraction pipeline `extract_sentences`,
    `extract_citations_from_sentences`, `extract_citations`;
  * the content resolver `scrape_citation_content`, with its external
    collaborators (`fetch_url`, trafilatura `extract`, readability
    `Document(...).summary()` plus tag stripping) supplied as
    already-computed outcomes, each an `Except` so that a collaborator
    may also raise;
  * the LLM-verdict parsing portion of `fact_check_citation`, over the
    outcome of `json.loads` on the raw model response;
  * the article-search loop of `main`, over a trace of fetch outcomes.

Python exceptions are modelled by the `PyExn` type; a function that can
raise returns `Except PyExn _`.
-/

/-- Python exception values relevant to the script: `json.JSONDecodeError`,
`KeyError`, `TypeError`, `ValueError` and `requests.RequestException`. -/
inductive PyExn where
  | jsonDecodeError (msg : String)
  | keyError (key : String)
  | typeError (msg : String)
  | valueError (msg : String)
  | requestException (msg : String)
deriving DecidableEq

/-- Whitespace characters stripped by Python `str.strip()` (ASCII range). -/
def pyIsSpace (c : Char) : Bool :=
  c = ' ' || c = '\t' || c = '\n' || c = '\x0d' || c = '\x0b' || c = '\x0c'

/-- Python `str.strip()`: remove leading and trailing whitespace. -/
def pyStrip (s : String) : String :=
  String.mk (((s.data.dropWhile pyIsSpace).reverse.dropWhile pyIsSpace).reverse)

/-- A node of the parsed markup tree: either a `NavigableString` leaf or a
`Tag` with a name, an attribute list and ordered children. -/
inductive DocumentNode where
  | text (s : String)
  | element (tag : String) (attrs : List (String × String)) (children : List DocumentNode)

/-- First value bound to an attribute key (HTML attributes are unique). -/
def attrLookup : List (String × String) → String → Option String
  | [], _ => none
  | (k, v) :: rest, key => if k == key then some v else attrLookup rest key

/-- Split an attribute value into whitespace-separated words, as
BeautifulSoup does for the multi-valued `class` attribute. -/
def classWordsAux : List Char → List Char → List String
  | [], acc => if acc.isEmpty then [] else [String.mk acc.reverse]
  | c :: rest, acc =>
    if pyIsSpace c then
      if acc.isEmpty then classWordsAux rest []
      else String.mk acc.reverse :: classWordsAux rest []
    else classWordsAux rest (c :: acc)

/-- Words of the `class` attribute value. -/
def classWords (v : String) : List String := classWordsAux v.data []

mutual

/-- BeautifulSoup `Tag.get_text()`: concatenation of every descendant
string, with no separator. -/
def getText : DocumentNode → String
  | .text s => s
  | .element _ _ children => getTextList children

/-- `getText` over a list of sibling nodes, in order. -/
def getTextList : List DocumentNode → String
  | [] => ""
  | n :: rest => getText n ++ getTextList rest

end

mutual

/-- All nodes of the subtree rooted at a node (the node itself included)
satisfying `pred`, in document (preorder) order. -/
def findAllFrom (pred : DocumentNode → Bool) : DocumentNode → List DocumentNode
  | .text s => if pred (.text s) then [DocumentNode.text s] else []
  | .element t a c =>
    (if pred (.element t a c) then [DocumentNode.element t a c] else []) ++ findAllList pred c

/-- `findAllFrom` over a list of sibling subtrees, in order. -/
def findAllList (pred : DocumentNode → Bool) : List DocumentNode → List DocumentNode
  | [] => []
  | n :: rest => findAllFrom pred n ++ findAllList pred rest

end

/-- BeautifulSoup `find_all`: matching descendants of a node, in document
order; the node itself is not a candidate. -/
def findAll (pred : DocumentNode → Bool) : DocumentNode → List DocumentNode
  | .text _ => []
  | .element _ _ c => findAllList pred c

/-- BeautifulSoup `find`: first matching descendant, if any. -/
def findFirst (pred : DocumentNode → Bool) (n : DocumentNode) : Option DocumentNode :=
  (findAll pred n).head?

/-- Predicate: the node is a `Tag` with the given name. -/
def isTag (tag : String) : DocumentNode → Bool
  | .text _ => false
  | .element t _ _ => t == tag

/-- Predicate: the node is a `Tag` whose attribute `key` equals `val`
exactly (BeautifulSoup keyword filters such as `id=...`). -/
def hasAttrVal (key val : String) : DocumentNode → Bool
  | .text _ => false
  | .element _ attrs _ => attrLookup attrs key == some val

/-- Predicate: the node is a `Tag` whose `class` attribute contains the
given class word (BeautifulSoup `class_=...` filter). -/
def hasClassWord (cls : String) : DocumentNode → Bool
  | .text _ => false
  | .element _ attrs _ =>
    match attrLookup attrs "class" with
    | some v => (classWords v).contains cls
    | none => false

/-- Attribute of a `Tag` node (`tag["key"]` after `tag.has_attr("key")`). -/
def nodeAttr : DocumentNode → String → Option String
  | .text _, _ => none
  | .element _ attrs _, key => attrLookup attrs key

/-- An extracted citation: the sentence buffer paired with the resolved
footnote URL (`Citation` NamedTuple of the script). -/
structure Citation where
  sentence : String
  url : String
deriving DecidableEq

/-- Scanner for `re.findall(r"\[(\d+)\]", sentence)`: return, left to
right and without overlap, the digit groups of every bracketed integer
token. `acc = some ds` means a `[` was opened and `ds` digits read. -/
def findCiteNumsAux : List Char → Option (List Char) → List String
  | [], _ => []
  | c :: rest, none =>
    findCiteNumsAux rest (if c = '[' then some [] else none)
  | c :: rest, some ds =>
    if c.isDigit then findCiteNumsAux rest (some (ds ++ [c]))
    else if c = ']' then
      if ds.isEmpty then findCiteNumsAux rest none
      else String.mk ds :: findCiteNumsAux rest none
    else findCiteNumsAux rest (if c = '[' then some [] else none)

/-- `re.findall(r"\[(\d+)\]", s)`. -/
def findCiteNums (s : String) : List String := findCiteNumsAux s.data none

/-- `extract_sentences`, inner loop body: reconstruct the text of one
paragraph by walking its direct children: a `Tag` child contributes
`child.get_text()`, a string child contributes `str(child).strip() + " "`. -/
def paragraphText : DocumentNode → String
  | .text _ => ""
  | .element _ _ children =>
    children.foldl
      (fun acc child =>
        match child with
        | .text s => acc ++ pyStrip s ++ " "
        | .element t a c => acc ++ getText (.element t a c))
      ""

/-- `extract_sentences(content)`: one reconstructed string per `<p>`
descendant of the content tree, in document order. -/
def extract_sentences (content : DocumentNode) : List String :=
  (findAll (isTag "p") content).map paragraphText

/-- Footnote-number resolution inside `extract_citations_from_sentences`:
look up `li#cite_note-<n>` in the content tree, then the first
`a.external` link inside it, then its `href` attribute. Any step failing
resolves to `none` (the marker is silently skipped). -/
def resolveCiteNum (content : DocumentNode) (citeNum : String) : Option String :=
  match findFirst (fun n => isTag "li" n && hasAttrVal "id" ("cite_note-" ++ citeNum) n) content with
  | none => none
  | some refItem =>
    match findFirst (fun n => isTag "a" n && hasClassWord "external" n) refItem with
    | none => none
    | some citeUrl => nodeAttr citeUrl "href"

/-- Citations harvested from one reconstructed sentence string: every
`[n]` token whose footnote resolves contributes
`Citation(sentence.strip(), href)`. -/
def citationsFromSentence (content : DocumentNode) (sentence : String) : List Citation :=
  (findCiteNums sentence).filterMap
    (fun citeNum => (resolveCiteNum content citeNum).map (fun href => ⟨pyStrip sentence, href⟩))

/-- `extract_citations_from_sentences(content, sentences)`. -/
def extract_citations_from_sentences
    (content : DocumentNode) (sentences : List String) : List Citation :=
  sentences.flatMap (citationsFromSentence content)

/-- `extract_citations(content)`. -/
def extract_citations (content : DocumentNode) : List Citation :=
  extract_citations_from_sentences content (extract_sentences content)

/-- A JSON value, as produced by `json.loads` on the raw model response. -/
inductive Json where
  | null
  | bool (b : Bool)
  | num (n : Int)
  | str (s : String)
  | arr (items : List Json)
  | obj (fields : List (String × Json))

/-- Lookup in a decoded JSON object. `json.loads` builds a Python dict, so
a duplicated key holds its last occurrence. -/
def lookupLast : List (String × Json) → String → Option Json
  | [], _ => none
  | (k, v) :: rest, key =>
    match lookupLast rest key with
    | some v2 => some v2
    | none => if k == key then some v else none

/-- Python subscript `result[k]` on a decoded JSON value: a dict yields the
value or raises `KeyError`; any non-dict value raises `TypeError`. -/
def jsonGetItem : Json → String → Except PyExn Json
  | .obj fields, k =>
    match lookupLast fields k with
    | some v => Except.ok v
    | none => Except.error (.keyError k)
  | .arr _, _ => Except.error (.typeError "list indices must be integers or slices, not str")
  | .str _, _ => Except.error (.typeError "string indices must be integers, not \x27str\x27")
  | .num _, _ => Except.error (.typeError "\x27int\x27 object is not subscriptable")
  | .bool _, _ => Except.error (.typeError "\x27bool\x27 object is not subscriptable")
  | .null, _ => Except.error (.typeError "\x27NoneType\x27 object is not subscriptable")

/-- The `FactCheckResult` NamedTuple. Python NamedTuples carry no runtime
type enforcement, so the fields hold whatever decoded JSON values were
bound to them. -/
structure FactCheckResult where
  reference_supports_citation : Json
  brief_explanation : Json

/-- The response-parsing portion of `fact_check_citation` (the LLM call
itself is an external collaborator; its raw response has already gone
through `json.loads`, whose outcome is `loadsResult`). The try-body
subscripts the decoded value once per `FactCheckResult` field, in field
order, and builds the result; `json.JSONDecodeError` and `KeyError` are
caught and turned into the fail-soft default, every other exception
propagates. `str(KeyError(k))` is the repr of `k`, hence the quotes. -/
def fact_check_citation (loadsResult : Except PyExn Json) : Except PyExn FactCheckResult :=
  let body : Except PyExn FactCheckResult :=
    match loadsResult with
    | .error e => .error e
    | .ok result =>
      match jsonGetItem result "reference_supports_citation" with
      | .error e => .error e
      | .ok v1 =>
        match jsonGetItem result "brief_explanation" with
        | .error e => .error e
        | .ok v2 => .ok ⟨v1, v2⟩
  match body with
  | .ok r => .ok r
  | .error (.jsonDecodeError m) =>
    .ok ⟨Json.bool false, Json.str ("Failed to parse LLM response: " ++ m)⟩
  | .error (.keyError k) =>
    .ok ⟨Json.bool false, Json.str ("Failed to parse LLM response: \x27" ++ k ++ "\x27")⟩
  | .error e => .error e

/-- Fallback stage of `scrape_citation_content`: readability
`Document(downloaded).summary()` followed by BeautifulSoup tag stripping
is the collaborator outcome `fallbackClean`; its result is accepted on
length alone. -/
def fallback_stage (fallbackClean : Except PyExn String) (min_length : Nat) :
    Except PyExn (Option String) :=
  match fallbackClean with
  | .error e => .error e
  | .ok clean_text =>
    .ok (if min_length ≤ clean_text.length then some clean_text else none)

/-- Try-body of `scrape_citation_content`. `fetched` is the `fetch_url`
outcome (`None` or a string, the empty string being falsy like `None`);
`primaryText` is the trafilatura `extract` outcome; the primary result is
accepted only when truthy and long enough. -/
def scrape_citation_body (fetched : Except PyExn (Option String))
    (primaryText : Except PyExn (Option String))
    (fallbackClean : Except PyExn String) (min_length : Nat) :
    Except PyExn (Option String) :=
  match fetched with
  | .error e => .error e
  | .ok none => .ok none
  | .ok (some d) =>
    if d = "" then .ok none
    else
      match primaryText with
      | .error e => .error e
      | .ok (some t) =>
        if t ≠ "" ∧ min_length ≤ t.length then .ok (some t)
        else fallback_stage fallbackClean min_length
      | .ok none => fallback_stage fallbackClean min_length

/-- `scrape_citation_content`: the try-body wrapped in
`except Exception: return None`. -/
def scrape_citation_content (fetched : Except PyExn (Option String))
    (primaryText : Except PyExn (Option String))
    (fallbackClean : Except PyExn String) (min_length : Nat) :
    Except PyExn (Option String) :=
  match scrape_citation_body fetched primaryText fallbackClean min_length with
  | .ok r => .ok r
  | .error _ => .ok none

/-- `scrape_wikipedia_article` after the transport fetch: locate the
`firstHeading` and `mw-content-text` elements in the parsed page and
raise `ValueError` when either is absent (`find` with an `id` filter only
returns `Tag`s, so the `isinstance` guard is subsumed). -/
def scrape_wikipedia_article (soup : DocumentNode) : Except PyExn (String × DocumentNode) :=
  match findFirst (hasAttrVal "id" "firstHeading") soup,
        findFirst (hasAttrVal "id" "mw-content-text") soup with
  | some title, some content => Except.ok (getText title, content)
  | _, _ =>
    Except.error (.valueError "Failed to find expected elements in the Wikipedia page")

/-- Outcome of the article-search loop in `main`. -/
inductive LoopOutcome where
  | found (title : String) (citations : List Citation)
  | abortedHandled (e : PyExn)
  | uncaughtError (e : PyExn)
  | exhausted

/-- The article-search loop of `main`, run over a (finite prefix of a)
trace of per-iteration fetch outcomes: each entry is the joint outcome of
`get_random_wikipedia_article` followed by `scrape_wikipedia_article`.
A `requests.RequestException` is caught and breaks the loop; any other
exception propagates out of `main`; an article without citations moves to
the next iteration; an article with citations is kept. -/
def searchLoop : List (Except PyExn (String × DocumentNode)) → LoopOutcome
  | [] => .exhausted
  | Except.error e :: _ =>
    match e with
    | .requestException m => .abortedHandled (.requestException m)
    | e => .uncaughtError e
  | Except.ok (title, content) :: rest =>
    let citations := extract_citations content
    if citations.isEmpty then searchLoop rest else .found title citations

/-- String of `n` copies of a character (to build length-calibrated
collaborator outputs in concrete scenarios). -/
def repChar (n : Nat) (c : Char) : String := String.mk (List.replicate n c)

/-! ## Concrete scenario inputs -/

/-- Paragraph of the boiling/melting scenario: the two citation markers
occur as bracketed tokens inside the paragraph text. -/
def para2 : DocumentNode :=
  .element "p" [] [.text "Water boils at 100°C[1]. Ice melts at 0°C[2]."]

/-- Footnote entry `cite_note-1`, external link to `http://a.example`. -/
def foot2a : DocumentNode :=
  .element "li" [("id", "cite_note-1")]
    [.element "a" [("class", "external text"), ("href", "http://a.example")] [.text "Source A"]]

/-- Footnote entry `cite_note-2`, external link to `http://b.example`. -/
def foot2b : DocumentNode :=
  .element "li" [("id", "cite_note-2")]
    [.element "a" [("class", "external text"), ("href", "http://b.example")] [.text "Source B"]]

/-- Article body of the boiling/melting scenario: one paragraph and a
footnote list mapping marker 1 to `http://a.example` and marker 2 to
`http://b.example`. -/
def tree2 : DocumentNode :=
  .element "div" [("id", "mw-content-text")] [para2, .element "ol" [] [foot2a, foot2b]]

/-- Structural citation marker: a superscript with a `reference` class
containing a link targeting footnote 1, with configurable rendered link
text (`"[1]"` as Wikipedia renders it, or bare `"1"`). -/
def sup5 (linkText : String) : DocumentNode :=
  .element "sup" [("class", "reference")]
    [.element "a" [("href", "#cite_note-1")] [.text linkText]]

/-- Article body holding a single structural marker (link text
configurable) and its resolvable footnote entry. -/
def tree5 (linkText : String) : DocumentNode :=
  .element "div" []
    [.element "p" [] [.text "Ice is cold.", sup5 linkText],
     .element "ol" []
       [.element "li" [("id", "cite_note-1")]
         [.element "a" [("class", "external"), ("href", "http://c.example")] [.text "Src"]]]]

/-- Article body with one marker whose footnote's first external link
carries a configurable `href` value. -/
def tree8 (href : String) : DocumentNode :=
  .element "div" []
    [.element "p" [] [.text "Claim text here.[1]"],
     .element "ol" []
       [.element "li" [("id", "cite_note-1")]
         [.element "a" [("class", "external"), ("href", href)] [.text "ref"]]]]

/-- A paragraph containing two sentences, each ending in its own marker. -/
def para9 : DocumentNode := .element "p" [] [.text "A[1]. B[2]."]

/-- Article body around `para9`, with both footnotes resolvable. -/
def tree9 : DocumentNode :=
  .element "div" []
    [para9,
     .element "ol" []
       [.element "li" [("id", "cite_note-1")]
         [.element "a" [("class", "external"), ("href", "http://x.example")] [.text "x"]],
        .element "li" [("id", "cite_note-2")]
         [.element "a" [("class", "external"), ("href", "http://y.example")] [.text "y"]]]]

/-- A fetched article page missing the `firstHeading` element. -/
def soup3 : DocumentNode :=
  .element "html" [] [.element "body" [] [.element "div" [("id", "mw-content-text")] []]]

/-- An article body with one resolvable citation (a re-selection target). -/
def tree3good : DocumentNode :=
  .element "div" []
    [.element "p" [] [.text "C[1]."],
     .element "ol" []
       [.element "li" [("id", "cite_note-1")]
         [.element "a" [("class", "external"), ("href", "http://z.example")] [.text "r"]]]]

/-! ## Claim C1 -/

/-- Claim C1, counterexample: the raw response `"[]"` is valid JSON, so
`json.loads` yields a non-record value (`Json.arr []`); subscripting it
raises a `TypeError`, which is outside the caught
`(json.JSONDecodeError, KeyError)` classes, so the parser raises to its
caller instead of returning the fail-soft default. -/
theorem c1_counterexample :
    fact_check_citation (Except.ok (Json.arr []))
      = Except.error (PyExn.typeError "list indices must be integers or slices, not str") := rfl

/-- Claim C1, amended: for a raw response that is invalid JSON, or whose
JSON decodes to a record missing a required field, the parser returns
`FactCheckResult(False, "Failed to parse LLM response: <cause>")` without
raising; raw responses whose JSON decodes to a non-record value instead
raise an uncaught `TypeError`. -/
theorem c1_amended_theorem (r : Except PyExn Json)
    (h : (∃ m, r = Except.error (PyExn.jsonDecodeError m)) ∨
         (∃ fs, r = Except.ok (Json.obj fs) ∧
            (lookupLast fs "reference_supports_citation" = none ∨
             lookupLast fs "brief_explanation" = none))) :
    ∃ cause, fact_check_citation r
      = Except.ok ⟨Json.bool false, Json.str ("Failed to parse LLM response: " ++ cause)⟩ := by
  rcases h with ⟨m, rfl⟩ | ⟨fs, rfl, hmiss⟩
  · exact ⟨m, rfl⟩
  · rcases h1 : lookupLast fs "reference_supports_citation" with _ | v1
    · refine ⟨"\x27reference_supports_citation\x27", ?_⟩
      simp [fact_check_citation, jsonGetItem, h1]
    · rcases hmiss with hmiss | hmiss
      · simp [hmiss] at h1
      · refine ⟨"\x27brief_explanation\x27", ?_⟩
        simp [fact_check_citation, jsonGetItem, h1, hmiss]

/-- Claim C1, witness: the amended statement at the decode outcome of the
raw response `"not json"`. -/
theorem c1_amended_witness :
    ∃ cause,
      fact_check_citation
          (Except.error (PyExn.jsonDecodeError "Expecting value: line 1 column 1 (char 0)"))
        = Except.ok ⟨Json.bool false, Json.str ("Failed to parse LLM response: " ++ cause)⟩ :=
  c1_amended_theorem _ (Or.inl ⟨_, rfl⟩)

/-! ## Claim C4 -/

/-- Claim C4, counterexample: with `min_length = 0`, a successful fetch,
an absent primary result and an empty fallback result — so both stage
outputs are empty — `scrape_citation_content` does not return the
`None` failure outcome: the fallback's length gate `0 ≤ 0` passes and the
empty string is returned as a success. -/
theorem c4_counterexample :
    scrape_citation_content (Except.ok (some "x")) (Except.ok none) (Except.ok "") 0
        = Except.ok (some "")
    ∧ (Except.ok (some "") : Except PyExn (Option String)) ≠ Except.ok none :=
  ⟨rfl, by simp⟩

/-- Claim C4, amended: given a successful non-empty fetch, `resolve`
returns Failure iff the primary output is absent, empty or shorter than
`minLength` and the fallback output is shorter than `minLength`; a
non-empty primary output of length at least `minLength` is returned with
precedence; otherwise a fallback output of length at least `minLength` is
returned — even the empty string, when `minLength = 0`. -/
theorem c4_amended_theorem (d : String) (hd : d ≠ "") (primary : Option String)
    (fb : String) (m : Nat) :
    (scrape_citation_content (Except.ok (some d)) (Except.ok primary) (Except.ok fb) m
        = Except.ok none
      ↔ (∀ t, primary = some t → t = "" ∨ t.length < m) ∧ fb.length < m)
    ∧ (∀ t, primary = some t → t ≠ "" → m ≤ t.length →
        scrape_citation_content (Except.ok (some d)) (Except.ok primary) (Except.ok fb) m
          = Except.ok (some t))
    ∧ ((∀ t, primary = some t → t = "" ∨ t.length < m) → m ≤ fb.length →
        scrape_citation_content (Except.ok (some d)) (Except.ok primary) (Except.ok fb) m
          = Except.ok (some fb)) := by
  rcases primary with _ | t
  · have hr : scrape_citation_content (Except.ok (some d)) (Except.ok none) (Except.ok fb) m
        = Except.ok (if m ≤ fb.length then some fb else none) := by
      simp [scrape_citation_content, scrape_citation_body, fallback_stage, hd]
    refine ⟨?_, ?_, ?_⟩
    · rw [hr]
      by_cases hfb : m ≤ fb.length
      · rw [if_pos hfb]
        simp
        omega
      · rw [if_neg hfb]
        simp
        omega
    · intro t ht
      cases ht
    · intro _ hfb
      rw [hr, if_pos hfb]
  · by_cases hcond : t ≠ "" ∧ m ≤ t.length
    · obtain ⟨ht0, htl⟩ := hcond
      have hr : scrape_citation_content (Except.ok (some d)) (Except.ok (some t)) (Except.ok fb) m
          = Except.ok (some t) := by
        simp [scrape_citation_content, scrape_citation_body, fallback_stage, hd, ht0, htl]
      refine ⟨?_, ?_, ?_⟩
      · rw [hr]
        constructor
        · intro hok
          exact Option.noConfusion (Except.ok.inj hok)
        · rintro ⟨hall, -⟩
          rcases hall t rfl with h0 | h0
          · exact absurd h0 ht0
          · exact absurd htl (by omega)
      · intro u hu hu0 hul
        injection hu with h2
        subst h2
        exact hr
      · intro hall _
        rcases hall t rfl with h0 | h0
        · exact absurd h0 ht0
        · exact absurd htl (by omega)
    · have h := hcond
      push_neg at h
      have hr : scrape_citation_content (Except.ok (some d)) (Except.ok (some t)) (Except.ok fb) m
          = Except.ok (if m ≤ fb.length then some fb else none) := by
        simp only [scrape_citation_content, scrape_citation_body, fallback_stage]
        rw [if_neg hd, if_neg hcond]
      refine ⟨?_, ?_, ?_⟩
      · rw [hr]
        by_cases hfb : m ≤ fb.length
        · rw [if_pos hfb]
          constructor
          · intro hok
            exact Option.noConfusion (Except.ok.inj hok)
          · rintro ⟨-, hlt⟩
            exact absurd hfb (by omega)
        · rw [if_neg hfb]
          constructor
          · intro _
            refine ⟨?_, by omega⟩
            intro u hu
            injection hu with h2
            subst h2
            by_cases hu0 : t = ""
            · exact Or.inl hu0
            · exact Or.inr (h hu0)
          · intro _
            rfl
      · intro u hu hu0 hul
        injection hu with h2
        subst h2
        exact absurd ⟨hu0, hul⟩ hcond
      · intro _ hfb
        rw [hr, if_pos hfb]

/-- Length of a repeated-character string. -/
theorem repChar_length (n : Nat) (c : Char) : (repChar n c).length = n :=
  List.length_replicate n c

/-- Claim C4, witness (the spec scenario): primary stage yields 50
characters, fallback yields 300, `minLength = 200`; the 300-character
fallback result is returned. -/
theorem c4_amended_witness :
    scrape_citation_content (Except.ok (some "x")) (Except.ok (some (repChar 50 'a')))
        (Except.ok (repChar 300 'b')) 200
      = Except.ok (some (repChar 300 'b')) := by
  have hx : "x" ≠ "" := by decide
  have h4 := c4_amended_theorem _ hx (some (repChar 50 'a')) (repChar 300 'b') 200
  refine h4.2.2 ?_ (by rw [repChar_length]; decide)
  intro t ht
  injection ht with h2
  subst h2
  right
  rw [repChar_length]
  decide

/-! ## Claim C10 -/

/-- Claim C10: `scrape_citation_content` never raises to its caller — for
every behavior of the fetch and extraction collaborators, including any
exception raised inside either extraction stage, it returns a value
(a string or the `None` failure outcome), never an exception. -/
theorem c10_theorem (fetched primaryText : Except PyExn (Option String))
    (fallbackClean : Except PyExn String) (min_length : Nat) :
    ∃ r : Option String,
      scrape_citation_content fetched primaryText fallbackClean min_length = Except.ok r := by
  unfold scrape_citation_content
  cases scrape_citation_body fetched primaryText fallbackClean min_length
  · exact ⟨none, rfl⟩
  · exact ⟨_, rfl⟩

/-! ## Claim C6 -/

/-- Claim C6, counterexample: a record with both required keys present but
wrongly shaped values (`reference_supports_citation` a string) is passed
through verbatim — the NamedTuple performs no runtime type validation —
rather than being replaced by the fail-soft default. -/
theorem c6_counterexample :
    fact_check_citation (Except.ok (Json.obj
        [("reference_supports_citation", Json.str "yes"), ("brief_explanation", Json.str "ok")]))
        = Except.ok ⟨Json.str "yes", Json.str "ok"⟩
    ∧ Json.str "yes" ≠ Json.bool false :=
  ⟨rfl, by simp⟩

/-- Claim C6, amended: when both required fields are present, their values
are returned verbatim whatever their shape; the fail-soft default arises
only from structural parse failure or a missing required field. -/
theorem c6_amended_theorem (fs : List (String × Json)) (v1 v2 : Json)
    (h1 : lookupLast fs "reference_supports_citation" = some v1)
    (h2 : lookupLast fs "brief_explanation" = some v2) :
    fact_check_citation (Except.ok (Json.obj fs)) = Except.ok ⟨v1, v2⟩ := by
  simp [fact_check_citation, jsonGetItem, h1, h2]

/-- Claim C6, witness: the amended statement at a record carrying a number
and a null in the two required fields. -/
theorem c6_amended_witness :
    fact_check_citation (Except.ok (Json.obj
        [("reference_supports_citation", Json.num 1), ("brief_explanation", Json.null)]))
      = Except.ok ⟨Json.num 1, Json.null⟩ :=
  c6_amended_theorem _ _ _ rfl rfl

/-! ## Claim C7 -/

/-- Claim C7: parsing a well-formed record
`{"reference_supports_citation": b, "brief_explanation": s}` — with any
additional keys — returns exactly `FactCheckResult(b, s)`, extra keys
discarded. -/
theorem c7_theorem (b : Bool) (s : String) (fs : List (String × Json))
    (h1 : lookupLast fs "reference_supports_citation" = some (Json.bool b))
    (h2 : lookupLast fs "brief_explanation" = some (Json.str s)) :
    fact_check_citation (Except.ok (Json.obj fs)) = Except.ok ⟨Json.bool b, Json.str s⟩ := by
  simp [fact_check_citation, jsonGetItem, h1, h2]

/-- Claim C7, witness: a record with two extra keys around the required
ones round-trips to exactly its two required values. -/
theorem c7_witness :
    fact_check_citation (Except.ok (Json.obj
        [("extra", Json.num 7), ("reference_supports_citation", Json.bool true),
         ("brief_explanation", Json.str "fine"), ("another", Json.null)]))
      = Except.ok ⟨Json.bool true, Json.str "fine"⟩ :=
  c7_theorem true "fine" _ rfl rfl

/-! ## Claim C2 -/

/-- Claim C2, counterexample: on the boiling/melting scenario the
extractor does not return the claimed per-sentence pairing — both emitted
citations carry the whole paragraph text, marker tokens included, so the
output differs from the claimed two-element sequence. -/
theorem c2_counterexample :
    extract_citations tree2
      ≠ [⟨"Water boils at 100°C.", "http://a.example"⟩,
         ⟨"Ice melts at 0°C.", "http://b.example"⟩] := by decide

/-- Claim C2, amended: the scenario yields two citations in marker order
with URLs `http://a.example` then `http://b.example`, but each is paired
with the same sentence string — the stripped text of the entire paragraph,
with the `[1]` and `[2]` marker tokens still included — because sentence
reconstruction works per paragraph and does not split at sentence
boundaries nor remove marker tokens. -/
theorem c2_amended_theorem :
    extract_citations tree2
      = [⟨"Water boils at 100°C[1]. Ice melts at 0°C[2].", "http://a.example"⟩,
         ⟨"Water boils at 100°C[1]. Ice melts at 0°C[2].", "http://b.example"⟩] := rfl

/-! ## Claim C3 -/

/-- Claim C3, counterexample: a fetched page missing the `firstHeading`
element makes `scrape_wikipedia_article` raise `ValueError`, and the
search loop — whose only handler is for `requests.RequestException` —
lets it propagate, aborting the run; the follow-up article that a
re-selection would have found (third conjunct) is never reached. -/
theorem c3_counterexample :
    scrape_wikipedia_article soup3
        = Except.error (PyExn.valueError "Failed to find expected elements in the Wikipedia page")
    ∧ searchLoop [scrape_wikipedia_article soup3, Except.ok ("Title", tree3good)]
        = LoopOutcome.uncaughtError
            (PyExn.valueError "Failed to find expected elements in the Wikipedia page")
    ∧ searchLoop [Except.ok ("Title", tree3good)]
        = LoopOutcome.found "Title" [⟨"C[1].", "http://z.example"⟩] :=
  ⟨rfl, rfl, rfl⟩

/-- Claim C3, amended: a `MarkupStructureError` (the `ValueError` raised
when expected elements are absent from a fetched article page) is not
caught by the article-search loop, which handles only
`requests.RequestException`; it propagates uncaught and aborts the whole
run without re-selecting a new article. -/
theorem c3_amended_theorem (m : String) (rest : List (Except PyExn (String × DocumentNode))) :
    searchLoop (Except.error (PyExn.valueError m) :: rest)
      = LoopOutcome.uncaughtError (PyExn.valueError m) := rfl

/-! ## Claim C5 -/

/-- Claim C5, counterexample: a tree whose only citation marker is
structural (a `sup.reference` element wrapping a link to `cite_note-1`,
link text `"1"` without brackets) and whose reconstructed sentences
contain no bracketed-integer token yields no citations at all, even
though the footnote entry is present and resolvable. -/
theorem c5_counterexample :
    extract_citations (tree5 "1") = []
    ∧ (findFirst (fun n => isTag "sup" n && hasClassWord "reference" n) (tree5 "1")).isSome = true
    ∧ (extract_sentences (tree5 "1")).map findCiteNums = [[]] :=
  ⟨rfl, rfl, rfl⟩

/-- Claim C5, amended: only the textual strategy is implemented — markers
are recognized solely through the bracketed-integer pattern over the
reconstructed sentence text. A structural marker is picked up exactly when
its own rendered text contributes a bracketed integer to that text, as
Wikipedia markup does: the same tree with link text `"[1]"` yields the
citation. -/
theorem c5_amended_theorem :
    extract_citations (tree5 "[1]") = [⟨"Ice is cold. [1]", "http://c.example"⟩] := rfl

/-! ## Claim C8 -/

/-- Claim C8, counterexample: when the footnote entry's first
externally-classified link carries an empty `href` attribute, the
extractor emits a citation whose `url` field is the empty string — the
claimed non-empty-URL invariant fails. -/
theorem c8_counterexample :
    (extract_citations (tree8 "")).map Citation.url = [""] := rfl

/-- Claim C8, amended: the `url` field is copied verbatim from the `href`
attribute of the footnote entry's first externally-classified link, with
no validation — any value, the empty string included, is emitted
unchanged. -/
theorem c8_amended_theorem (href : String) :
    extract_citations (tree8 href) = [⟨"Claim text here.[1]", href⟩] := rfl

/-! ## Claim C9 -/

/-- Every citation harvested from one reconstructed sentence string
carries that whole string, stripped, as its `sentence` field. -/
theorem citationsFromSentence_sentence (content : DocumentNode) (s : String) (c : Citation)
    (hc : c ∈ citationsFromSentence content s) : c.sentence = pyStrip s := by
  unfold citationsFromSentence at hc
  rw [List.mem_filterMap] at hc
  obtain ⟨num, -, hf⟩ := hc
  rcases hres : resolveCiteNum content num with _ | href
  · rw [hres] at hf
    cases hf
  · rw [hres, Option.map_some'] at hf
    injection hf with h2
    subst h2
    rfl

/-- Claim C9: all citations whose markers occur within the same paragraph
element carry an identical sentence string — the stripped reconstruction
of that entire paragraph's text — and the extractor is exactly the
per-paragraph harvest concatenated in document order. -/
theorem c9_theorem (content p : DocumentNode) (c1 c2 : Citation)
    (_hp : p ∈ findAll (isTag "p") content)
    (h1 : c1 ∈ citationsFromSentence content (paragraphText p))
    (h2 : c2 ∈ citationsFromSentence content (paragraphText p)) :
    c1.sentence = c2.sentence
    ∧ c1.sentence = pyStrip (paragraphText p)
    ∧ extract_citations content
        = ((findAll (isTag "p") content).map paragraphText).flatMap
            (citationsFromSentence content) :=
  ⟨(citationsFromSentence_sentence content _ c1 h1).trans
      (citationsFromSentence_sentence content _ c2 h2).symm,
   citationsFromSentence_sentence content _ c1 h1, rfl⟩

/-- Claim C9, witness: in `tree9` the two markers sit in different
sentences of one paragraph, yet both emitted citations carry the same
whole-paragraph sentence text. -/
theorem c9_witness :
    (Citation.mk "A[1]. B[2]." "http://x.example").sentence
        = (Citation.mk "A[1]. B[2]." "http://y.example").sentence
    ∧ (Citation.mk "A[1]. B[2]." "http://x.example").sentence = pyStrip (paragraphText para9)
    ∧ extract_citations tree9
        = ((findAll (isTag "p") tree9).map paragraphText).flatMap
            (citationsFromSentence tree9) :=
  c9_theorem tree9 para9 ⟨"A[1]. B[2].", "http://x.example"⟩ ⟨"A[1]. B[2].", "http://y.example"⟩
    (List.Mem.head _) (by decide) (by decide)
